import Mathlib

/-!
Verification of the slot lifecycle engine in src/ads.js: macro substitution
(replaceAuctionMacros), URL extraction from ORTB markup (extractUrls), the
per-slot orchestration in AdSystem (slot parsing, bid request, renderAd
dispatch, hideAdSlot/showError terminal states) and the viewability state
machine (setupViewabilityTracking).

Embedding conventions:
- JavaScript strings are Lean String (logically List Char); optional / possibly
  absent JSON fields are Option String, with the empty string kept distinct
  so that JS truthiness (null, undefined and "" are falsy) can be modelled.
- Numbers that the source only ever turns into strings (bid.price) are carried
  as their decimal rendering. IntersectionObserver ratios (JS doubles 0.4, 0.5,
  0.6) are carried in exact hundredths (40, 50, 60) to stay in integer
  arithmetic; the source compares ratio >= 0.5, modelled as pct >= 50.
- Asynchronous I/O is passed in as explicit behaviour values (FetchBehavior,
  visibility entry timelines); fire-and-forget beacons are collected in lists.
-/

/-- JS `a || b` on two possibly-absent strings: `null`, `undefined` and `""`
are falsy, so a present empty string falls through to the right operand. -/
def jsOrStr : Option String → Option String → Option String
  | some s, b => if s = "" then b else some s
  | none, b => b

/-- Coercion of a possibly-undefined JS string to a string, as URLSearchParams
performs it: `undefined` is stringified to "undefined". -/
def jsToStr : Option String → String
  | some s => s
  | none => "undefined"

/-- JS `x || null` on a string-valued expression: empty strings collapse to
absence, mirroring the truthiness guards in extractUrls and renderOrtbAd. -/
def strOrNone : Option String → Option String
  | some v => if v = "" then none else some v
  | none => none

/-- GetSubstitution from the ECMAScript spec for a replacement STRING, as used
by String.prototype.replace at src/ads.js:649: `$$` yields a dollar, `$&` the
matched substring, a dollar before a backquote the part of the subject before
the match, a dollar before a quote the part after it; everything else is
copied verbatim (the regex built from the macro name has no capture groups, so
digit references stay literal). -/
def expandDollar (matched before after : List Char) : List Char → List Char
  | '$' :: '$' :: rest => '$' :: expandDollar matched before after rest
  | '$' :: '&' :: rest => matched ++ expandDollar matched before after rest
  | '$' :: '\x60' :: rest => before ++ expandDollar matched before after rest
  | '$' :: '\x27' :: rest => after ++ expandDollar matched before after rest
  | '$' :: c :: rest => '$' :: c :: expandDollar matched before after rest
  | c :: rest => c :: expandDollar matched before after rest
  | [] => []

/-- Scan of `acc.replace(new RegExp(escapedToken, "g"), value)`: the escaped
macro name is a literal, non-empty token, so the global regex walks the
subject left to right, replacing each non-overlapping occurrence and never
rescanning text it has already produced. `orig` is the whole subject (needed
for the before/after parts of expandDollar), `i` the current position, and the
fuel argument (instantiated with the subject length, an upper bound on the
number of scan steps for the non-empty tokens of src/ads.js) keeps the
recursion structural. -/
def jsReplaceAllAux (orig token repl : List Char) : ℕ → ℕ → List Char → List Char
  | _, _, [] => []
  | 0, _, s => s
  | fuel + 1, i, c :: rest =>
    if token.isPrefixOf (c :: rest) then
      expandDollar token (orig.take i) (orig.drop (i + token.length)) repl
        ++ jsReplaceAllAux orig token repl fuel (i + token.length)
            (List.drop token.length (c :: rest))
    else
      c :: jsReplaceAllAux orig token repl fuel (i + 1) rest

/-- One step of the reduce at src/ads.js:648-650: global replacement of the
literal macro token in `s` by the replacement string `repl`, with JS
replacement-pattern semantics. -/
def jsReplaceAll (s token repl : String) : String :=
  List.asString (jsReplaceAllAux s.toList token.toList repl.toList s.toList.length 0 s.toList)

/-- Whether `token` occurs as a contiguous sublist of `s` (used to reason
about replacement steps whose token does not occur). -/
def subOccurs (token : List Char) : List Char → Bool
  | [] => token.isPrefixOf ([] : List Char)
  | c :: rest => token.isPrefixOf (c :: rest) || subOccurs token rest

/-- parseInt(x, 10) on a possibly-absent dataset attribute (src/ads.js:84-86):
leading whitespace is skipped, an optional sign read, then the maximal leading
digit run; no digits gives NaN, modelled as none. -/
def parseInt10 (attr : Option String) : Option Int :=
  match attr with
  | none => none
  | some s =>
    let cs := s.toList.dropWhile (fun c => c.isWhitespace)
    let signed := cs.head? == some '-' || cs.head? == some '+'
    let body := if signed then cs.tail else cs
    let digits := body.takeWhile (fun c => c.isDigit)
    if digits.isEmpty then none
    else
      let n : ℕ := digits.foldl (fun acc c => acc * 10 + (c.toNat - 48)) 0
      if cs.head? == some '-' then some (-(n : Int)) else some (n : Int)

/-- The `parseInt(...) || 0` idiom of src/ads.js:84-86: NaN (and a parsed -0)
collapse to 0. -/
def parsedOrZero (attr : Option String) : Int := (parseInt10 attr).getD 0

/-- The slot gate `if (width && height && slot_id)` at src/ads.js:87: JS
number truthiness keeps every non-zero value, including negative ones. -/
def slotAccepted (w h sid : Option String) : Bool :=
  (parsedOrZero w != 0) && (parsedOrZero h != 0) && (parsedOrZero sid != 0)

/-- tracking sub-object of brand / testing_pid bid responses. -/
structure Tracking where
  impression_url : Option String := none
  click_url : Option String := none
  billable_impression_url : Option String := none
  destination_url : Option String := none
  landing_page_url : Option String := none
deriving DecidableEq

/-- The anchor element found by `doc.querySelector("a")` in extractUrls;
href is the resolved href property (absent attribute gives the empty string
in the DOM, modelled as none via strOrNone at the use site). -/
structure AdmAnchor where
  href : Option String := none
deriving DecidableEq

/-- The image element found by `doc.querySelector("img")` in extractUrls. -/
structure AdmImg where
  src : Option String := none
  onload : Option String := none
deriving DecidableEq

/-- Result of DOMParser.parseFromString on the adm markup: the first anchor
and first image of the fragment, if any (the markup string itself is opaque
to the engine beyond these two queries). -/
structure AdmDoc where
  anchorTag : Option AdmAnchor := none
  imgTag : Option AdmImg := none
deriving DecidableEq

/-- One entry of seatbid[i].bid (OpenRTB-like shape, src/ads.js:432,635). The
price field carries the decimal rendering that `bid.price?.toString()`
produces. -/
structure OrtbBid where
  id : Option String := none
  impid : Option String := none
  price : Option String := none
  adid : Option String := none
  adm : Option AdmDoc := none
  nurl : Option String := none
  burl : Option String := none
deriving DecidableEq

/-- One entry of the seatbid array. -/
structure SeatBid where
  seat : Option String := none
  bid : List OrtbBid := []
deriving DecidableEq

/-- The decoded JSON bid response: a brand / testing_pid creative payload and
an ORTB payload share one record, discriminated by ad_type as in renderAd. -/
structure BidResponse where
  ad_type : Option String := none
  id : Option String := none
  bidid : Option String := none
  cur : Option String := none
  seatbid : List SeatBid := []
  full_file_path : Option String := none
  creative_type : Option String := none
  brand_name : Option String := none
  tracking : Option Tracking := none
deriving DecidableEq

/-- `bidResponse?.seatbid?.[0]?.bid?.[0]` (src/ads.js:432,633). -/
def firstBid (r : BidResponse) : Option OrtbBid :=
  r.seatbid.head?.bind (fun sb => sb.bid.head?)

/-- `bidResponse.seatbid[0].seat` (src/ads.js:640). -/
def firstSeat (r : BidResponse) : Option String :=
  r.seatbid.head?.bind (fun sb => sb.seat)

/-- The macros object of replaceAuctionMacros (src/ads.js:636-646), in JS
object-literal insertion order, with each value already coerced by `|| ""`. -/
def auctionValues (r : BidResponse) (b : OrtbBid) : List (String × String) :=
  [("$\x7bAUCTION_ID\x7d", (jsOrStr r.id r.bidid).getD ""),
   ("$\x7bAUCTION_BID_ID\x7d", b.id.getD ""),
   ("$\x7bAUCTION_IMP_ID\x7d", b.impid.getD ""),
   ("$\x7bAUCTION_SEAT_ID\x7d", (firstSeat r).getD ""),
   ("$\x7bAUCTION_PRICE\x7d", b.price.getD ""),
   ("$\x7bAUCTION_CURRENCY\x7d", r.cur.getD ""),
   ("$\x7bAUCTION_MBR\x7d", ""),
   ("$\x7bAUCTION_AD_ID\x7d", b.adid.getD ""),
   ("$\x7bAUCTION_LOSS\x7d", "")]

/-- replaceAuctionMacros (src/ads.js:632-651): empty url or a response
without seatbid[0].bid[0] returns the url unchanged; otherwise the macros are
folded over the url in object order, each step a global literal-token
replacement done with String.prototype.replace. -/
def replaceAuctionMacros (url : String) (r : BidResponse) : String :=
  if url = "" then url
  else
    match firstBid r with
    | none => url
    | some b => (auctionValues r b).foldl (fun acc mv => jsReplaceAll acc mv.1 mv.2) url

/-- The literal characters of `sendUrl('` (the opening of the onload pattern
at src/ads.js:546). -/
def sendUrlOpen : List Char := "sendUrl(\x27".toList

/-- First match of /sendUrl\((quote)([^(quote)]+)(quote)\)/ in the onload
attribute: the scan tries each start position left to right; at a position the
literal opening must be followed by a non-empty run of non-quote characters
and then by the quote-parenthesis closing, exactly the backtrack-free shape of
that regex. Returns the capture. -/
def sendUrlScan : List Char → Option (List Char)
  | [] => none
  | c :: rest =>
    if sendUrlOpen.isPrefixOf (c :: rest) then
      let after := List.drop sendUrlOpen.length (c :: rest)
      let cap := after.takeWhile (fun ch => ch != '\x27')
      if !cap.isEmpty && List.take 2 (after.drop cap.length) == ['\x27', ')'] then
        some cap
      else sendUrlScan rest
    else sendUrlScan rest

/-- The three URLs extractUrls (src/ads.js:534-559) recovers from the parsed
adm markup. -/
structure ExtractedUrls where
  clickUrl : Option String
  imageUrl : Option String
  impressionUrl : Option String
deriving DecidableEq

/-- extractUrls: anchor href and image src fall back to null when absent or
empty (`|| null`); the impression URL is taken from the first sendUrl match in
a present, non-empty onload attribute. A missing adm parses to a document with
no anchor and no image. -/
def extractUrls (adm : Option AdmDoc) : ExtractedUrls :=
  match adm with
  | none => ⟨none, none, none⟩
  | some d =>
    let click := strOrNone (d.anchorTag.bind AdmAnchor.href)
    let image := strOrNone (d.imgTag.bind AdmImg.src)
    let impr :=
      match strOrNone (d.imgTag.bind AdmImg.onload) with
      | none => none
      | some ol => Option.map List.asString (sendUrlScan ol.toList)
    ⟨click, image, impr⟩

/-- One fire-and-forget tracking request issued through sendImpression
(src/ads.js:617-630): either a plain GET of a URL, or the structured journey
event GET updateJourneyUrl?bid_id=(id)&event=(event) built with
URLSearchParams (percent-encoding abstracted). -/
inductive Beacon where
  | get (url : String)
  | journey (bidId : String) (event : String)
deriving DecidableEq

/-- Terminal state of one slot after its pipeline has finished. hidden
records a hideAdSlot call (the element gets style.display = "none"); errored
records a showError call (the element gets a visible explanatory error box);
renderedOrtb carries the sendImpression calls wired to the image load event. -/
inductive SlotTerminal where
  | renderedMedia
  | renderedOrtb (onLoad : List Beacon)
  | hidden (msg : String)
  | errored (msg : String)
deriving DecidableEq

/-- Whether the terminal slot state leaves a visible box in the page layout:
hideAdSlot (src/ads.js:293-303) sets display none, showError
(src/ads.js:653-670) writes a visible placeholder with the message. -/
def slotVisible : SlotTerminal → Bool
  | SlotTerminal.hidden _ => false
  | SlotTerminal.errored _ => true
  | SlotTerminal.renderedMedia => true
  | SlotTerminal.renderedOrtb _ => true

/-- The load-event handler of renderOrtbAd (src/ads.js:484-501): the
adm-extracted impression URL and the structured impression journey event fire
only inside `if (urls.impressionUrl)`; a truthy bid.nurl is macro-substituted
and fired unconditionally afterwards. -/
def ortbOnLoad (r : BidResponse) (b : OrtbBid) : List Beacon :=
  (match (extractUrls b.adm).impressionUrl with
   | some u =>
     [Beacon.get u, Beacon.journey (jsToStr (jsOrStr r.id r.bidid)) "impression_at"]
   | none => [])
  ++ (match strOrNone b.nurl with
      | some n => [Beacon.get (replaceAuctionMacros n r)]
      | none => [])

/-- renderOrtbAd (src/ads.js:431-532): no seatbid[0].bid[0] or no extractable
image URL is a showError outcome; otherwise the creative is built and the
load handler of ortbOnLoad is wired. -/
def renderOrtbAd (r : BidResponse) : SlotTerminal :=
  match firstBid r with
  | none => SlotTerminal.errored "No valid bid received."
  | some b =>
    match (extractUrls b.adm).imageUrl with
    | none => SlotTerminal.errored "Invalid ad creative."
    | some _ => SlotTerminal.renderedOrtb (ortbOnLoad r b)

/-- renderBrandAd (src/ads.js:309-429): a falsy full_file_path is a showError
outcome, otherwise the tracked media element is built. -/
def renderBrandAd (ad : BidResponse) : SlotTerminal :=
  match strOrNone ad.full_file_path with
  | none => SlotTerminal.errored "Invalid brand ad creative."
  | some _ => SlotTerminal.renderedMedia

/-- renderTestingPidAd (src/ads.js:181-290): a falsy full_file_path is a
hideAdSlot outcome, otherwise the tracked media element is built. -/
def renderTestingPidAd (ad : BidResponse) : SlotTerminal :=
  match strOrNone ad.full_file_path with
  | none => SlotTerminal.hidden "Invalid testing_pid ad creative."
  | some _ => SlotTerminal.renderedMedia

/-- renderAd (src/ads.js:157-178): dispatch on ad_type; anything but the
three known tags is hidden with "Unknown ad type received.". -/
def renderAd (r : BidResponse) : SlotTerminal :=
  match r.ad_type with
  | some t =>
    if t = "brand" then renderBrandAd r
    else if t = "ortb" then renderOrtbAd r
    else if t = "testing_pid" then renderTestingPidAd r
    else SlotTerminal.hidden "Unknown ad type received."
  | none => SlotTerminal.hidden "Unknown ad type received."

/-- The beacons wired to the creative load event, when the outcome wired
any. -/
def onLoadBeacons : SlotTerminal → List Beacon
  | SlotTerminal.renderedOrtb l => l
  | _ => []

/-- Behaviour of the bid endpoint for one slot: it answers after some delay
with an HTTP status class and body, fails at the transport level, or never
answers at all. -/
inductive FetchBehavior where
  | respondsAfter (ms : ℕ) (ok : Bool) (body : BidResponse)
  | transportError
  | neverResponds

/-- How the makeBidRequest promise settles. -/
inductive BidRequestResult where
  | resolved (r : BidResponse)
  | thrown
  | neverSettles

/-- makeBidRequest (src/ads.js:119-155). The call site passes
`timeout: 3000` in the fetch options object, but `timeout` is not a member of
the fetch API RequestInit dictionary and unknown members are ignored, so no
timeout of any kind is applied: the delay of the response is irrelevant to
the outcome, and an endpoint that never answers leaves the promise pending
forever. A non-2xx status throws (`HTTP Error`), as does a transport
failure; nothing is retried. -/
def makeBidRequest (net : FetchBehavior) : BidRequestResult :=
  match net with
  | FetchBehavior.respondsAfter _ ok body =>
    if ok then BidRequestResult.resolved body else BidRequestResult.thrown
  | FetchBehavior.transportError => BidRequestResult.thrown
  | FetchBehavior.neverResponds => BidRequestResult.neverSettles

/-- One declared placeholder together with the bid endpoint behaviour its
pipeline will observe: the three data attributes (dataset.width,
dataset.height, dataset.slot_id) and the network environment. -/
structure SlotInput where
  width : Option String
  height : Option String
  slot_id : Option String
  net : FetchBehavior

/-- loadAdForSlot (src/ads.js:105-116): any exception from the bid request or
from rendering is caught and turned into hideAdSlot "Failed to load
advertisement."; a never-settling request leaves the slot promise pending
(none). -/
def loadAdForSlot (net : FetchBehavior) : Option SlotTerminal :=
  match makeBidRequest net with
  | BidRequestResult.resolved r => some (renderAd r)
  | BidRequestResult.thrown => some (SlotTerminal.hidden "Failed to load advertisement.")
  | BidRequestResult.neverSettles => none

/-- The per-slot branch of AdSystem initialization (src/ads.js:83-97): a slot
failing the truthiness gate is hidden immediately with "Ad size & slot not
defined." and resolves at once; an accepted slot runs loadAdForSlot. -/
def slotResult (s : SlotInput) : Option SlotTerminal :=
  if slotAccepted s.width s.height s.slot_id then loadAdForSlot s.net
  else some (SlotTerminal.hidden "Ad size & slot not defined.")

/-- Number of outbound bid requests the slot pipeline issues: makeBidRequest
is called exactly once for an accepted slot and never for a rejected one. -/
def slotBidRequests (s : SlotInput) : ℕ :=
  if slotAccepted s.width s.height s.slot_id then 1 else 0

/-- Promise.allSettled over the per-slot promises (src/ads.js:98-102): the
aggregate resolves, with every outcome in order, exactly when every member
settles; it never rejects. -/
def settleAll : List (Option SlotTerminal) → Option (List SlotTerminal)
  | [] => some []
  | none :: _ => none
  | some t :: rest =>
    match settleAll rest with
    | some ts => some (t :: ts)
    | none => none

/-- The slot-processing part of AdSystem initialization: each declared
placeholder is mapped independently through slotResult and the results are
joined with all-settled semantics. -/
def adSystemRun (slots : List SlotInput) : Option (List SlotTerminal) :=
  settleAll (slots.map slotResult)

/-- Viewability threshold of src/ads.js:60 (0.5, in hundredths). -/
def vwThresholdPct : ℕ := 50

/-- Viewability dwell duration of src/ads.js:61, in milliseconds. -/
def vwDurationMs : ℕ := 1000

/-- The closure state of one setupViewabilityTracking call
(src/ads.js:566-615): visibilityStart and the pending one-shot timer (stored
as its absolute fire time), the hasTriggeredBillable latch, whether the
observer has been disconnected, and the times at which the billable callback
has run. -/
structure VState where
  visibilityStart : Option ℕ
  pendingTimer : Option ℕ
  hasTriggeredBillable : Bool
  disconnected : Bool
  firedAt : List ℕ

/-- State directly after `new IntersectionObserver(...)` plus
`observer.observe(element)`. -/
def initVState : VState := ⟨none, none, false, false, []⟩

/-- The setTimeout callback of src/ads.js:585-591, run at time t if the timer
is due: when the latch is still clear it fires the billable callback once,
sets the latch and disconnects the observer. A one-shot timer is spent either
way. -/
def fireTimerIfDue (t : ℕ) (s : VState) : VState :=
  match s.pendingTimer with
  | none => s
  | some ft =>
    if ft ≤ t then
      if s.hasTriggeredBillable then { s with pendingTimer := none }
      else { s with pendingTimer := none, hasTriggeredBillable := true,
                    disconnected := true, firedAt := s.firedAt ++ [ft] }
    else s

/-- One IntersectionObserver entry: whether the element intersects, the
intersection ratio in hundredths, and the time of the entry. -/
structure VwEntry where
  isIntersecting : Bool
  ratioPct : ℕ
  time : ℕ

/-- The IntersectionObserver callback of src/ads.js:576-600: at or above
threshold, a fresh visibilityStart is recorded and a dwell timer scheduled;
below threshold, a pending timer is cancelled and the start discarded. A
disconnected observer delivers no entries. -/
def observerStep (e : VwEntry) (s : VState) : VState :=
  if s.disconnected then s
  else if e.isIntersecting && decide (vwThresholdPct ≤ e.ratioPct) then
    match s.visibilityStart with
    | none => { s with visibilityStart := some e.time,
                       pendingTimer := some (e.time + vwDurationMs) }
    | some _ => s
  else
    match s.visibilityStart with
    | some _ => { s with pendingTimer := none, visibilityStart := none }
    | none => s

/-- An event in the life of one tracked element: a (re-)registration through
setupViewabilityTracking, or a visibility entry delivered at its time. -/
inductive VwAction where
  | register
  | entry (e : VwEntry)

/-- One tracked DOM element: the `_viewabilityTracking` guard flag attached to
it, and the observer/closure states created for it (one per registration that
passed the guard). -/
structure TrackedElement where
  viewabilityFlag : Bool
  trackers : List VState

/-- A freshly rendered, never-registered element. -/
def adElement : TrackedElement := ⟨false, []⟩

/-- setupViewabilityTracking (src/ads.js:566-569): the guard returns
immediately when the element is already tracked; otherwise the flag is set
and a fresh observer with fresh closure state is created. -/
def setupViewabilityTracking (el : TrackedElement) : TrackedElement :=
  if el.viewabilityFlag then el
  else { viewabilityFlag := true, trackers := el.trackers ++ [initVState] }

/-- Processing one action: a registration runs the guarded setup; a
visibility entry at time t first lets any due timer fire, then runs the
observer callback, on every observer attached to the element. -/
def elementStep (el : TrackedElement) : VwAction → TrackedElement
  | VwAction.register => setupViewabilityTracking el
  | VwAction.entry e =>
    { el with trackers := el.trackers.map (fun s => observerStep e (fireTimerIfDue e.time s)) }

/-- A whole timeline of registrations and visibility entries applied to a
fresh element. -/
def runActions (as : List VwAction) : TrackedElement := as.foldl elementStep adElement

/-- After the timeline ends, a still-pending one-shot timer fires at its
scheduled time. -/
def flushTimer (s : VState) : VState :=
  match s.pendingTimer with
  | none => s
  | some ft => fireTimerIfDue ft s

/-- All times at which the billable callback ran for the element, including
the eventual firing of a timer still pending at the end of the timeline. -/
def firesOf (el : TrackedElement) : List ℕ :=
  (el.trackers.map (fun s => (flushTimer s).firedAt)).flatten

/-- Invariant of one closure state: the latch counts the firings, and once
set, the timer is spent and the observer disconnected. -/
def VInv (s : VState) : Prop :=
  (s.hasTriggeredBillable = false → s.firedAt = []) ∧
  (s.hasTriggeredBillable = true →
    s.firedAt.length = 1 ∧ s.pendingTimer = none ∧ s.disconnected = true)

/-- Invariant of a tracked element: the guard flag is set exactly when
observer state exists, at most one observer is ever attached, and every
attached state satisfies VInv. -/
def EInv (el : TrackedElement) : Prop :=
  (el.viewabilityFlag = false → el.trackers = []) ∧
  el.trackers.length ≤ 1 ∧ (∀ s ∈ el.trackers, VInv s)

/-- Fixture: ORTB markup whose image carries an onload sendUrl attribute
(the end-to-end shape of spec section 8). -/
def admWithOnload : AdmDoc :=
  { anchorTag := some { href := some "https://x" },
    imgTag := some { src := some "https://y", onload := some "sendUrl(\x27https://z\x27)" } }

/-- Fixture: an ORTB bid carrying admWithOnload and no win notice. -/
def bidWithOnload : OrtbBid := { adm := some admWithOnload }

/-- Fixture: a complete ORTB bid response around bidWithOnload. -/
def rWithOnload : BidResponse :=
  { ad_type := some "ortb", id := some "r1", seatbid := [{ bid := [bidWithOnload] }] }

theorem asString_toList (s : String) : List.asString s.toList = s := rfl

theorem jsReplaceAllAux_no_occurrence (orig token repl : List Char) (fuel i : ℕ)
    (s : List Char) (h : subOccurs token s = false) :
    jsReplaceAllAux orig token repl fuel i s = s := by
  induction fuel generalizing i s with
  | zero => cases s <;> rfl
  | succ n ih =>
    cases s with
    | nil => rfl
    | cons c rest =>
      rw [subOccurs, Bool.or_eq_false_iff] at h
      rw [jsReplaceAllAux, if_neg (by simp [h.1]), ih (i + 1) rest h.2]

theorem jsReplaceAll_no_occurrence (s token repl : String)
    (h : subOccurs token.toList s.toList = false) : jsReplaceAll s token repl = s := by
  rw [jsReplaceAll, jsReplaceAllAux_no_occurrence _ _ _ _ _ _ h, asString_toList]

theorem settleAll_length (l : List (Option SlotTerminal)) (outs : List SlotTerminal)
    (h : settleAll l = some outs) : outs.length = l.length := by
  induction l generalizing outs with
  | nil =>
    simp only [settleAll, Option.some.injEq] at h
    simp [h.symm]
  | cons o rest ih =>
    cases o with
    | none => simp [settleAll] at h
    | some t =>
      cases hr : settleAll rest with
      | none => rw [settleAll, hr] at h; simp at h
      | some ts =>
        rw [settleAll, hr] at h
        simp only [Option.some.injEq] at h
        subst h
        simp [ih ts hr]

theorem vinv_init : VInv initVState := by
  constructor <;> simp [initVState]

theorem vinv_fire (t : ℕ) (s : VState) (h : VInv s) : VInv (fireTimerIfDue t s) := by
  obtain ⟨h0, h1⟩ := h
  unfold fireTimerIfDue
  split
  · exact ⟨h0, h1⟩
  · rename_i ft hp
    split
    · split
      · rename_i htr
        exact ⟨fun hc => absurd hc (by simp [htr]),
               fun _ => ⟨(h1 htr).1, rfl, (h1 htr).2.2⟩⟩
      · rename_i htr
        have htr2 : s.hasTriggeredBillable = false := by
          cases hb : s.hasTriggeredBillable
          · rfl
          · exact absurd hb htr
        refine ⟨fun hc => absurd hc (by simp), fun _ => ⟨?_, rfl, rfl⟩⟩
        simp [h0 htr2]
    · exact ⟨h0, h1⟩

theorem vinv_observer (e : VwEntry) (s : VState) (h : VInv s) : VInv (observerStep e s) := by
  obtain ⟨h0, h1⟩ := h
  unfold observerStep
  split
  · exact ⟨h0, h1⟩
  · rename_i hd
    have htr : s.hasTriggeredBillable = false := by
      cases hb : s.hasTriggeredBillable
      · rfl
      · exact absurd (h1 hb).2.2 hd
    split
    · split
      · exact ⟨fun _ => h0 htr, fun hc => absurd hc (by simp [htr])⟩
      · exact ⟨h0, h1⟩
    · split
      · exact ⟨fun _ => h0 htr, fun hc => absurd hc (by simp [htr])⟩
      · exact ⟨h0, h1⟩

theorem flush_fires_le_one (s : VState) (h : VInv s) : (flushTimer s).firedAt.length ≤ 1 := by
  obtain ⟨h0, h1⟩ := h
  unfold flushTimer
  split
  · cases htr : s.hasTriggeredBillable
    · simp [h0 htr]
    · simp [(h1 htr).1]
  · rename_i ft hp
    unfold fireTimerIfDue
    split
    · rename_i hp2
      rw [hp] at hp2
      cases hp2
    · rename_i ft2 hp2
      rw [hp] at hp2
      cases hp2
      split
      · split
        · rename_i htr
          simp [(h1 htr).1]
        · rename_i htr
          have htr2 : s.hasTriggeredBillable = false := by
            cases hb : s.hasTriggeredBillable
            · rfl
            · exact absurd hb htr
          simp [h0 htr2]
      · rename_i hle
        exact absurd (le_refl ft) hle

theorem einv_adElement : EInv adElement := by
  refine ⟨fun _ => rfl, by simp [adElement], fun s hs => ?_⟩
  simp [adElement] at hs

theorem einv_step (el : TrackedElement) (a : VwAction) (h : EInv el) :
    EInv (elementStep el a) := by
  obtain ⟨hf, hl, hv⟩ := h
  cases a with
  | register =>
    show EInv (setupViewabilityTracking el)
    unfold setupViewabilityTracking
    split
    · exact ⟨hf, hl, hv⟩
    · rename_i hfl
      have he : el.trackers = [] := by
        apply hf
        cases hb : el.viewabilityFlag
        · rfl
        · exact absurd hb hfl
      refine ⟨fun hc => by simp at hc, by simp [he], fun s hs => ?_⟩
      rw [he] at hs
      simp at hs
      rw [hs]
      exact vinv_init
  | entry e =>
    show EInv { el with
      trackers := el.trackers.map (fun s => observerStep e (fireTimerIfDue e.time s)) }
    refine ⟨fun hc => by simp [hf hc], by simpa using hl, fun s hs => ?_⟩
    simp only [List.mem_map] at hs
    obtain ⟨s0, hs0, rfl⟩ := hs
    exact vinv_observer e _ (vinv_fire e.time s0 (hv s0 hs0))

theorem einv_foldl (l : List VwAction) (el : TrackedElement) (h : EInv el) :
    EInv (l.foldl elementStep el) := by
  induction l generalizing el with
  | nil => exact h
  | cons x xs ih => exact ih _ (einv_step el x h)

theorem fires_le_one (el : TrackedElement) (h : EInv el) : (firesOf el).length ≤ 1 := by
  obtain ⟨-, hl, hv⟩ := h
  rw [firesOf]
  cases ht : el.trackers with
  | nil => simp
  | cons s rest =>
    cases rest with
    | nil =>
      simp only [List.map_cons, List.map_nil, List.flatten_cons, List.flatten_nil,
        List.append_nil]
      exact flush_fires_le_one s (hv s (by simp [ht]))
    | cons s2 rest2 => rw [ht] at hl; simp at hl

/-- C1: across any sequence of registrations and visibility entries for one
tracked element, the billable callback of setupViewabilityTracking runs at
most once (counting the eventual firing of a timer still pending at the end),
and registering an already-registered element is a no-op: the second
setupViewabilityTracking call returns the element unchanged. -/
theorem viewability_billable_at_most_once :
    (∀ as : List VwAction, (firesOf (runActions as)).length ≤ 1) ∧
    (∀ el : TrackedElement,
      setupViewabilityTracking (setupViewabilityTracking el) = setupViewabilityTracking el) := by
  constructor
  · intro as
    exact fires_le_one _ (einv_foldl as adElement einv_adElement)
  · intro el
    cases hfl : el.viewabilityFlag
    · simp [setupViewabilityTracking, hfl]
    · simp [setupViewabilityTracking, hfl]

/-- C2: on the visibility timeline visible(t=0, ratio 0.6), visible(t=400,
ratio 0.4), visible(t=500, ratio 0.6) with threshold 0.5 and dwell 1000 ms,
the billable callback fires exactly once, at t=1500: the sub-threshold entry
at t=400 cancels the dwell timer started at t=0, and the timer restarted at
t=500 fires at 1500. The singleton fire-time list also shows no firing
happens before t=1500. -/
theorem viewability_dwell_reset_timeline :
    firesOf (runActions
      [VwAction.register,
       VwAction.entry ⟨true, 60, 0⟩,
       VwAction.entry ⟨true, 40, 400⟩,
       VwAction.entry ⟨true, 60, 500⟩]) = [1500] := by decide

/-- C3 counterexample: a placeholder declaring width -5 (non-positive) passes
the truthiness gate of src/ads.js:87, so its pipeline does issue the bid
request and the slot is not marked misconfigured; the claim predicts no
network call and the immediate misconfigured terminal state. -/
theorem slot_gate_negative_counterexample :
    slotBidRequests ⟨some "-5", some "250", some "3", FetchBehavior.transportError⟩ = 1 ∧
    slotResult ⟨some "-5", some "250", some "3", FetchBehavior.transportError⟩ ≠
      some (SlotTerminal.hidden "Ad size & slot not defined.") := by decide

/-- C3 (amended): a placeholder whose width, height or slot id parses to NaN
or zero under parseInt-or-zero is rejected before any network call and is
immediately hidden as misconfigured; negative parsed values, being truthy in
JS, are not caught by this gate. -/
theorem slot_gate_zero_rejected (w h sid : Option String) (net : FetchBehavior)
    (hz : parsedOrZero w = 0 ∨ parsedOrZero h = 0 ∨ parsedOrZero sid = 0) :
    slotResult ⟨w, h, sid, net⟩ = some (SlotTerminal.hidden "Ad size & slot not defined.") ∧
    slotBidRequests ⟨w, h, sid, net⟩ = 0 := by
  have hacc : slotAccepted w h sid = false := by
    unfold slotAccepted
    rcases hz with hz | hz | hz <;> simp [hz]
  constructor
  · simp [slotResult, hacc]
  · simp [slotBidRequests, hacc]

theorem slot_gate_zero_rejected_w :
    (parsedOrZero (some "0") = 0 ∨ parsedOrZero (some "250") = 0 ∨
      parsedOrZero (some "3") = 0) ∧
    slotResult ⟨some "0", some "250", some "3", FetchBehavior.transportError⟩ =
      some (SlotTerminal.hidden "Ad size & slot not defined.") ∧
    slotBidRequests ⟨some "0", some "250", some "3", FetchBehavior.transportError⟩ = 0 :=
  ⟨Or.inl (by decide),
   (slot_gate_zero_rejected (some "0") (some "250") (some "3")
     FetchBehavior.transportError (Or.inl (by decide))).1,
   (slot_gate_zero_rejected (some "0") (some "250") (some "3")
     FetchBehavior.transportError (Or.inl (by decide))).2⟩

/-- C4: the orchestration resolves only with one terminal state per declared
slot (all-settled aggregation is total over settled pipelines and never
rejects), and concretely, in a three-slot run whose middle slot throws during
the bid request, the exception is caught into the hidden terminal state of
that slot alone while the outcomes of the other two slots are unaffected and
the aggregate resolves. -/
theorem ad_run_all_settled :
    (∀ (slots : List SlotInput) (outs : List SlotTerminal),
      adSystemRun slots = some outs → outs.length = slots.length) ∧
    (∀ (a b c : SlotInput) (ta tc : SlotTerminal),
      slotResult a = some ta → slotResult c = some tc →
      slotAccepted b.width b.height b.slot_id = true →
      b.net = FetchBehavior.transportError →
      adSystemRun [a, b, c] =
        some [ta, SlotTerminal.hidden "Failed to load advertisement.", tc]) := by
  constructor
  · intro slots outs h
    rw [adSystemRun] at h
    simpa using settleAll_length _ _ h
  · intro a b c ta tc ha hc hb hnet
    have hbres : slotResult b = some (SlotTerminal.hidden "Failed to load advertisement.") := by
      rw [slotResult, if_pos hb, hnet]
      rfl
    rw [adSystemRun]
    simp [settleAll, ha, hc, hbres]

theorem ad_run_all_settled_w :
    adSystemRun
      [⟨some "300", some "250", some "1",
        FetchBehavior.respondsAfter 50 true
          { ad_type := some "brand", full_file_path := some "https://cdn/a.png" }⟩,
       ⟨some "728", some "90", some "2", FetchBehavior.transportError⟩,
       ⟨some "160", some "600", some "3", FetchBehavior.respondsAfter 40 false {}⟩] =
      some [SlotTerminal.renderedMedia,
            SlotTerminal.hidden "Failed to load advertisement.",
            SlotTerminal.hidden "Failed to load advertisement."] :=
  ad_run_all_settled.2 _ _ _ _ _ (by decide) (by decide) (by decide) rfl

/-- C5 (bug evidence): the fetch call of makeBidRequest passes timeout 3000 in
its options object, but the fetch API has no such option and silently ignores
it, so no timeout exists: a response arriving long after 3000 ms still
resolves normally, an endpoint that never answers leaves the request pending
forever, and no TimeoutError is ever produced; only non-2xx statuses and
transport failures throw. -/
theorem makeBidRequest_no_timeout :
    makeBidRequest FetchBehavior.neverResponds = BidRequestResult.neverSettles ∧
    (∀ r : BidResponse,
      makeBidRequest (FetchBehavior.respondsAfter 10000 true r) = BidRequestResult.resolved r) ∧
    makeBidRequest FetchBehavior.transportError = BidRequestResult.thrown :=
  ⟨rfl, fun _ => rfl, rfl⟩

/-- C8: substitution with a response that carries no bid payload (no
seatbid[0].bid[0]) returns the template unchanged, for every template; the
embedding is a total function, matching the pure-and-total contract. -/
theorem substitute_without_payload (template : String) (r : BidResponse)
    (h : firstBid r = none) : replaceAuctionMacros template r = template := by
  unfold replaceAuctionMacros
  split
  · rfl
  · rw [h]

theorem substitute_without_payload_w :
    firstBid ({} : BidResponse) = none ∧
    replaceAuctionMacros "hello" ({} : BidResponse) = "hello" :=
  ⟨rfl, substitute_without_payload "hello" {} rfl⟩

/-- C7 counterexample: for a BidResponse without a bid payload the guard of
replaceAuctionMacros returns the template unchanged, so substituting the
always-empty AUCTION_MBR macro does not yield "x=" for every response, as the
claim states. -/
theorem mbr_without_payload_counterexample :
    replaceAuctionMacros "x=$\x7bAUCTION_MBR\x7d" ({} : BidResponse) =
      "x=$\x7bAUCTION_MBR\x7d" ∧
    "x=$\x7bAUCTION_MBR\x7d" ≠ "x=" := by decide

/-- C7 (amended): the concrete example substitutes price and bid id as the
spec shows, and the AUCTION_MBR template yields "x=" for every BidResponse
that carries a bid payload (a payload-less response returns the template
unchanged instead). -/
theorem substitute_examples (r : BidResponse) (b : OrtbBid) (hb : firstBid r = some b) :
    replaceAuctionMacros "price=$\x7bAUCTION_PRICE\x7d&id=$\x7bAUCTION_BID_ID\x7d"
      { seatbid := [{ bid := [{ id := some "b1", price := some "2.5" }] }] } =
      "price=2.5&id=b1" ∧
    replaceAuctionMacros "x=$\x7bAUCTION_MBR\x7d" r = "x=" := by
  constructor
  · decide
  · unfold replaceAuctionMacros
    rw [if_neg (by decide), hb]
    simp only [auctionValues, List.foldl_cons, List.foldl_nil]
    have e1 : jsReplaceAll "x=$\x7bAUCTION_MBR\x7d" "$\x7bAUCTION_ID\x7d"
        ((jsOrStr r.id r.bidid).getD "") = "x=$\x7bAUCTION_MBR\x7d" :=
      jsReplaceAll_no_occurrence _ _ _ (by decide)
    rw [e1]
    have e2 : jsReplaceAll "x=$\x7bAUCTION_MBR\x7d" "$\x7bAUCTION_BID_ID\x7d"
        (b.id.getD "") = "x=$\x7bAUCTION_MBR\x7d" :=
      jsReplaceAll_no_occurrence _ _ _ (by decide)
    rw [e2]
    have e3 : jsReplaceAll "x=$\x7bAUCTION_MBR\x7d" "$\x7bAUCTION_IMP_ID\x7d"
        (b.impid.getD "") = "x=$\x7bAUCTION_MBR\x7d" :=
      jsReplaceAll_no_occurrence _ _ _ (by decide)
    rw [e3]
    have e4 : jsReplaceAll "x=$\x7bAUCTION_MBR\x7d" "$\x7bAUCTION_SEAT_ID\x7d"
        ((firstSeat r).getD "") = "x=$\x7bAUCTION_MBR\x7d" :=
      jsReplaceAll_no_occurrence _ _ _ (by decide)
    rw [e4]
    have e5 : jsReplaceAll "x=$\x7bAUCTION_MBR\x7d" "$\x7bAUCTION_PRICE\x7d"
        (b.price.getD "") = "x=$\x7bAUCTION_MBR\x7d" :=
      jsReplaceAll_no_occurrence _ _ _ (by decide)
    rw [e5]
    have e6 : jsReplaceAll "x=$\x7bAUCTION_MBR\x7d" "$\x7bAUCTION_CURRENCY\x7d"
        (r.cur.getD "") = "x=$\x7bAUCTION_MBR\x7d" :=
      jsReplaceAll_no_occurrence _ _ _ (by decide)
    rw [e6]
    have e7 : jsReplaceAll "x=$\x7bAUCTION_MBR\x7d" "$\x7bAUCTION_MBR\x7d" "" = "x=" := by
      decide
    rw [e7]
    have e8 : jsReplaceAll "x=" "$\x7bAUCTION_AD_ID\x7d" (b.adid.getD "") = "x=" :=
      jsReplaceAll_no_occurrence _ _ _ (by decide)
    rw [e8]
    exact jsReplaceAll_no_occurrence _ _ _ (by decide)

theorem substitute_examples_w :
    replaceAuctionMacros "x=$\x7bAUCTION_MBR\x7d"
      { seatbid := [{ bid := [{ id := some "b1", price := some "2.5" }] }] } = "x=" :=
  (substitute_examples { seatbid := [{ bid := [{ id := some "b1", price := some "2.5" }] }] }
    { id := some "b1", price := some "2.5" } rfl).2

/-- C6 counterexample: substitution is a sequential fold in macro-object
order, so a value substituted for an earlier token that contains a later
macro token is itself substituted by the later step: with bidResponse.id equal
to the AUCTION_PRICE token and price 2.5, the template consisting of the
AUCTION_ID token evaluates to "2.5" instead of staying as the inserted
AUCTION_PRICE token, refuting the claim that a token contained in a
substituted value is never substituted. -/
theorem substitution_not_single_pass_counterexample :
    replaceAuctionMacros "$\x7bAUCTION_ID\x7d"
      { id := some "$\x7bAUCTION_PRICE\x7d",
        seatbid := [{ bid := [{ id := some "x$&y", price := some "2.5" }] }] } = "2.5" ∧
    ("2.5" : String) ≠ "$\x7bAUCTION_PRICE\x7d" := by decide

/-- C6 (amended): substitution is a fixed-order sequential fold over the nine
macros that always terminates; a later macro token contained in a value
substituted for an earlier token IS substituted by the later step (first
conjunct); values are inserted with JS replacement-string semantics rather
than fully literally, so a dollar-ampersand in a value re-inserts the matched
token (second conjunct); tokens whose field is absent resolve to the empty
string (third conjunct); and every occurrence of a token is replaced (fourth
conjunct). -/
theorem substitution_sequential_fold :
    replaceAuctionMacros "$\x7bAUCTION_ID\x7d"
      { id := some "$\x7bAUCTION_PRICE\x7d",
        seatbid := [{ bid := [{ id := some "x$&y", price := some "2.5" }] }] } = "2.5" ∧
    replaceAuctionMacros "$\x7bAUCTION_BID_ID\x7d"
      { id := some "$\x7bAUCTION_PRICE\x7d",
        seatbid := [{ bid := [{ id := some "x$&y", price := some "2.5" }] }] } =
      "x$\x7bAUCTION_BID_ID\x7dy" ∧
    replaceAuctionMacros "$\x7bAUCTION_IMP_ID\x7d"
      { id := some "$\x7bAUCTION_PRICE\x7d",
        seatbid := [{ bid := [{ id := some "x$&y", price := some "2.5" }] }] } = "" ∧
    replaceAuctionMacros "a$\x7bAUCTION_CURRENCY\x7db$\x7bAUCTION_CURRENCY\x7dc"
      { cur := some "USD", seatbid := [{ bid := [{}] }] } = "aUSDbUSDc" := by decide

/-- C9 counterexample: an ORTB creative whose markup has an image but no
onload attribute renders successfully, yet its load handler fires no
structured impression journey event (only the win-notice nurl), refuting the
claim that every successfully rendered ORTB creative fires the journey event
on load. -/
theorem ortb_missing_journey_counterexample :
    renderAd
      { ad_type := some "ortb",
        seatbid := [{ bid := [{ adm := some { anchorTag := some { href := some "https://x" },
                                              imgTag := some { src := some "https://y" } },
                                nurl := some "https://win" }] }] } =
      SlotTerminal.renderedOrtb [Beacon.get "https://win"] := by decide

/-- C9 (amended): for a successfully rendered ORTB creative, the load handler
fires the structured impression journey event exactly when the adm markup
yields an onload impression URL (no journey event of any kind fires on load
otherwise), and the macro-substituted win-notice nurl fires on load whenever
the bid carries a truthy nurl, independently of the journey event. -/
theorem ortb_load_journey_events (r : BidResponse) (b : OrtbBid)
    (ht : r.ad_type = some "ortb") (hb : firstBid r = some b)
    (himg : (extractUrls b.adm).imageUrl.isSome = true) :
    ((extractUrls b.adm).impressionUrl.isSome = true →
      Beacon.journey (jsToStr (jsOrStr r.id r.bidid)) "impression_at" ∈
        onLoadBeacons (renderAd r)) ∧
    ((extractUrls b.adm).impressionUrl = none →
      ∀ bi ev, Beacon.journey bi ev ∉ onLoadBeacons (renderAd r)) ∧
    (∀ n, strOrNone b.nurl = some n →
      Beacon.get (replaceAuctionMacros n r) ∈ onLoadBeacons (renderAd r)) := by
  obtain ⟨u, hu⟩ := Option.isSome_iff_exists.mp himg
  have hra : renderAd r = SlotTerminal.renderedOrtb (ortbOnLoad r b) := by
    unfold renderAd renderOrtbAd
    rw [ht, hb]
    show (match (extractUrls b.adm).imageUrl with
      | none => SlotTerminal.errored "Invalid ad creative."
      | some _ => SlotTerminal.renderedOrtb (ortbOnLoad r b)) =
      SlotTerminal.renderedOrtb (ortbOnLoad r b)
    rw [hu]
  rw [hra]
  refine ⟨?_, ?_, ?_⟩
  · intro himp
    obtain ⟨iu, hiu⟩ := Option.isSome_iff_exists.mp himp
    show Beacon.journey (jsToStr (jsOrStr r.id r.bidid)) "impression_at" ∈ ortbOnLoad r b
    unfold ortbOnLoad
    rw [hiu]
    simp
  · intro himp bi ev
    show Beacon.journey bi ev ∉ ortbOnLoad r b
    unfold ortbOnLoad
    rw [himp]
    cases hn : strOrNone b.nurl <;> simp
  · intro n hn
    show Beacon.get (replaceAuctionMacros n r) ∈ ortbOnLoad r b
    unfold ortbOnLoad
    rw [hn]
    cases himp : (extractUrls b.adm).impressionUrl <;> simp

theorem ortb_load_journey_events_w :
    (extractUrls bidWithOnload.adm).impressionUrl.isSome = true ∧
    Beacon.journey "r1" "impression_at" ∈ onLoadBeacons (renderAd rWithOnload) :=
  ⟨by decide,
   (ortb_load_journey_events rWithOnload bidWithOnload rfl rfl (by decide)).1 (by decide)⟩

/-- C10 counterexample: a misconfigured slot is a slot-scoped failure, yet its
terminal state comes from hideAdSlot, which sets display none: the element is
hidden, not a visible neutral placeholder, refuting the claim that every
slot-scoped failure leaves a visible placeholder box. -/
theorem failure_hidden_counterexample :
    slotResult ⟨none, some "250", some "3", FetchBehavior.transportError⟩ =
      some (SlotTerminal.hidden "Ad size & slot not defined.") ∧
    slotVisible (SlotTerminal.hidden "Ad size & slot not defined.") = false := by decide

/-- C10 (amended): failure display is split by class. Brand and ORTB
creative-level failures go through showError and leave a visible explanatory
box: invalid brand creative, missing ORTB bid, and ORTB markup without an
extractable image. Misconfigured slots, bid request failures, unknown ad
types and invalid testing_pid creatives go through hideAdSlot and hide the
element entirely. -/
theorem failure_display_by_class :
    (slotResult ⟨none, some "250", some "3", FetchBehavior.transportError⟩ =
       some (SlotTerminal.hidden "Ad size & slot not defined.") ∧
     slotVisible (SlotTerminal.hidden "Ad size & slot not defined.") = false) ∧
    (slotResult ⟨some "300", some "250", some "3", FetchBehavior.transportError⟩ =
       some (SlotTerminal.hidden "Failed to load advertisement.") ∧
     slotVisible (SlotTerminal.hidden "Failed to load advertisement.") = false) ∧
    (renderAd { ad_type := some "native" } =
       SlotTerminal.hidden "Unknown ad type received." ∧
     slotVisible (SlotTerminal.hidden "Unknown ad type received.") = false) ∧
    (renderAd { ad_type := some "brand" } =
       SlotTerminal.errored "Invalid brand ad creative." ∧
     slotVisible (SlotTerminal.errored "Invalid brand ad creative.") = true) ∧
    (renderAd { ad_type := some "ortb" } =
       SlotTerminal.errored "No valid bid received." ∧
     slotVisible (SlotTerminal.errored "No valid bid received.") = true) ∧
    (renderAd { ad_type := some "ortb", seatbid := [{ bid := [{}] }] } =
       SlotTerminal.errored "Invalid ad creative." ∧
     slotVisible (SlotTerminal.errored "Invalid ad creative.") = true) ∧
    (renderAd { ad_type := some "testing_pid" } =
       SlotTerminal.hidden "Invalid testing_pid ad creative." ∧
     slotVisible (SlotTerminal.hidden "Invalid testing_pid ad creative.") = false) := by
  decide
